import Mathlib

/-!
# Verification of the PyMammotion dual-transport orchestrator and payload assembler

Shallow embedding of `pymammotion/data/model/hash_list.py` and
`pymammotion/mammotion/devices/mammotion.py`, followed by theorems settling the
spec claims about fragment ingestion, device registration, command routing,
login/connection orchestration and device reconciliation.
-/

namespace PyMammotion

/-! ## Fragment data model (`NavGetCommDataAck`)

The fragment message type comes from the generated proto layer; for the
assembler only its `type` (category), `hash`, `total_frame` and payload fields
matter.  betterproto messages compare field-wise, so structural equality models
Python `==` on two fragments. -/

structure NavGetCommDataAck where
  type : Nat
  hash : Nat
  total_frame : Nat
  current_frame : Nat
  data_couple : List Nat
  deriving DecidableEq, Repr

/-- `FrameList` from `hash_list.py`: declared total frame count plus the stored
fragment sequence. -/
structure FrameList where
  total_frame : Nat
  data : List NavGetCommDataAck
  deriving DecidableEq, Repr

/-- A Python dict keyed by the fragment hash, modelled as a partial map. -/
def HashDict : Type := Nat → Option FrameList

/-- `dict.get(k)` / `dict[k]` lookup. -/
def HashDict.get (d : HashDict) (k : Nat) : Option FrameList := d k

/-- `dict[k] = v` assignment. -/
def HashDict.set (d : HashDict) (k : Nat) (v : FrameList) : HashDict :=
  fun k' => if k' = k then some v else d k'

/-- Python equality between a fragment message object and an `int` hash value:
`NavGetCommDataAck.__eq__` returns `NotImplemented` on a non-message operand and
`int.__eq__` returns `NotImplemented` on a message, so `==` is always `False`. -/
def fragEqInt (_f : NavGetCommDataAck) (_h : Nat) : Bool := false

/-- Python `x in xs` for a fragment against a list of `int` hash values,
as evaluated by `hash_data not in hash_values` in `_add_hash_data`. -/
def fragMemIntList (f : NavGetCommDataAck) (hs : List Nat) : Bool :=
  hs.any (fragEqInt f)

/-- `HashList._add_hash_data` (hash_list.py lines 33-40), embedded faithfully:
if the key is absent, a fresh `FrameList` holding the fragment is inserted;
then (unconditionally — there is no early return) the fragment is appended
whenever `hash_data not in hash_values` holds, where `hash_values` is the list
of `int` hashes of the stored fragments. -/
def addHashData (hash_dict : HashDict) (hash_data : NavGetCommDataAck) : HashDict :=
  let d :=
    if (hash_dict.get hash_data.hash).isNone then
      hash_dict.set hash_data.hash ⟨hash_data.total_frame, [hash_data]⟩
    else hash_dict
  match d.get hash_data.hash with
  | none => d
  | some fl =>
      let hash_values := fl.data.map (·.hash)
      if ¬ fragMemIntList hash_data hash_values then
        d.set hash_data.hash ⟨fl.total_frame, fl.data ++ [hash_data]⟩
      else d

/-- `HashList` (hash_list.py): three per-category dicts. -/
structure HashList where
  area : HashDict
  path : HashDict
  obstacle : HashDict

/-- `HashList.update` (hash_list.py lines 22-31): dispatch on `hash_data.type`
with three independent `if` statements (types 0, 1, 2 are disjoint, so the
sequential ifs touch at most one dict). -/
def HashList.update (s : HashList) (hash_data : NavGetCommDataAck) : HashList :=
  let s1 := if hash_data.type = 0 then { s with area := addHashData s.area hash_data } else s
  let s2 := if hash_data.type = 1 then { s1 with obstacle := addHashData s1.obstacle hash_data } else s1
  if hash_data.type = 2 then { s2 with path := addHashData s2.path hash_data } else s2

/-- Category-indexed view of the three dicts: type 0 → area, 1 → obstacle,
2 → path. -/
def HashList.dict (s : HashList) : Nat → HashDict
  | 0 => s.area
  | 1 => s.obstacle
  | _ => s.path

/-- The empty assembler state. -/
def HashList.empty : HashList := ⟨fun _ => none, fun _ => none, fun _ => none⟩

/-- Ingest a list of fragments left to right. -/
def HashList.ingestAll (s : HashList) (fs : List NavGetCommDataAck) : HashList :=
  fs.foldl HashList.update s

/-- Fragment `A` of the C1 scenario: hash H1 = 1, total_frame 3, category area. -/
def fragA : NavGetCommDataAck := ⟨0, 1, 3, 0, [10]⟩

/-- Fragment `B` of the C1 scenario: same hash and category, different content. -/
def fragB : NavGetCommDataAck := ⟨0, 1, 3, 1, [11]⟩

/-- Well-formedness of one per-category dict: every stored fragment sits under
its own hash key. -/
def WFd (d : HashDict) : Prop :=
  ∀ h fl, d.get h = some fl → ∀ g ∈ fl.data, g.hash = h

/-- Well-formedness of the whole assembler state. -/
def HashList.WF (s : HashList) : Prop :=
  WFd s.area ∧ WFd s.obstacle ∧ WFd s.path

/-! ## Device registry (`mammotion.py`)

`MammotionMixedDeviceManager` wraps an optional BLE handle and an optional
cloud handle plus a connection preference; `MammotionDevices` is a dict from
device name to manager.  Handles and broker connection objects
(`MammotionCloud`) are identified by the data they were built from; broker
object identity is a numeric id (Python `==` on these objects is identity). -/

structure BLEDeviceRef where
  name : String
  address : Nat
  deriving DecidableEq, Repr

structure CloudDeviceDesc where
  deviceName : String
  iotId : Nat
  deriving DecidableEq, Repr

/-- `MammotionBaseBLEDevice`, built from a raw BLE device reference. -/
structure BLEHandle where
  device : BLEDeviceRef
  deriving DecidableEq, Repr

/-- `MammotionBaseCloudDevice`: its `_mqtt` broker reference (possibly `None`,
identified by broker object id) and the cloud device descriptor. -/
structure CloudHandle where
  mqtt : Option Nat
  device : CloudDeviceDesc
  deriving DecidableEq, Repr

/-- `ConnectionPreference` enum. -/
inductive ConnectionPreference
  | EITHER
  | WIFI
  | BLUETOOTH
  deriving DecidableEq, Repr

/-- `MammotionMixedDeviceManager`: `_ble_device`, `_cloud_device`,
`preference`, keyed by `name`. -/
structure DeviceManager where
  name : String
  ble : Option BLEHandle
  cloud : Option CloudHandle
  preference : ConnectionPreference
  deriving DecidableEq, Repr

/-- `MammotionMixedDeviceManager.__init__`: `add_ble`/`add_cloud` construct a
handle only when the corresponding device reference is supplied. -/
def mkManager (name : String) (cloudDevice : Option CloudDeviceDesc)
    (bleDevice : Option BLEDeviceRef) (mqtt : Option Nat)
    (preference : ConnectionPreference) : DeviceManager :=
  { name := name
    ble := bleDevice.map (fun d => ⟨d⟩)
    cloud := cloudDevice.map (fun d => ⟨mqtt, d⟩)
    preference := preference }

/-- `MammotionDevices.devices`: a dict from name to manager, modelled as an
association list with unique keys. -/
abbrev Registry : Type := List (String × DeviceManager)

/-- `self.devices.get(name)`. -/
def Registry.get (r : Registry) (n : String) : Option DeviceManager :=
  (List.find? (fun e => e.1 = n) r).map (·.2)

/-- The merge performed by `add_device` on an existing entry: `replace_cloud`
when the incoming manager `has_cloud()`, then `replace_ble` when it
`has_ble()`; the existing preference is never written. -/
def mergeInto (old incoming : DeviceManager) : DeviceManager :=
  let e1 := if incoming.cloud.isSome then { old with cloud := incoming.cloud } else old
  if incoming.ble.isSome then { e1 with ble := incoming.ble } else e1

/-- `MammotionDevices.add_device` (mammotion.py lines 95-103). -/
def addDevice (r : Registry) (m : DeviceManager) : Registry :=
  match r.get m.name with
  | none => r ++ [(m.name, m)]
  | some _ => r.map (fun e => if e.1 = m.name then (e.1, mergeInto e.2 m) else e)

/-- The sharing test of `remove_device`: a remaining device belongs to
`should_disconnect` iff it has a cloud handle whose `_mqtt` equals the removed
device's `_mqtt`. -/
def sharesBroker (d : DeviceManager) (e : String × DeviceManager) : Bool :=
  match e.2.cloud, d.cloud with
  | some ch, some dh => decide (ch.mqtt = dh.mqtt)
  | _, _ => false

/-- `MammotionDevices.remove_device` (mammotion.py lines 108-117): pops the
entry (`KeyError`, i.e. `none`, when absent); when the removed manager has a
cloud handle, computes the set of remaining devices sharing the same broker
and calls `disconnect()` iff that set is empty.  Returns the new registry and
whether `disconnect()` was called on the removed device's broker. -/
def removeDevice (r : Registry) (n : String) : Option (Registry × Bool) :=
  match r.get n with
  | none => none
  | some d =>
      let r' := r.eraseP (fun e => e.1 = n)
      if d.cloud.isSome then
        some (r', (r'.filter (sharesBroker d)).length = 0)
      else some (r', false)

/-- Tag for the four command-routing entry points, which share one dispatch
structure (mammotion.py lines 249-285). -/
inductive RouteOp
  | sendCommand
  | sendCommandWithArgs
  | startSync
  | startMapSync
  deriving DecidableEq, Repr

/-- The Python exception classes these paths can produce.  `KeyError` and
`LookupError` are in the `LookupError` class; `AttributeError` is not. -/
inductive PyErr
  | attributeError
  | lookupError
  | keyError
  deriving DecidableEq, Repr

def isLookupErrorClass : PyErr → Bool
  | .lookupError => true
  | .keyError => true
  | .attributeError => false

/-- Outcome of one routing call: Python `None` returned with no transport
invoked, a transport handle invoked, or an exception raised. -/
inductive RouteOutcome
  | retNone
  | invokedBle (h : BLEHandle) (op : RouteOp)
  | invokedCloud (h : CloudHandle) (op : RouteOp)
  | raised (e : PyErr)
  deriving DecidableEq, Repr

/-- Common dispatch of `send_command`, `send_command_with_args`, `start_sync`
and `start_map_sync`: `device = get_device_by_name(name); if device:` then
`if preference is BLUETOOTH: … ble().…` / `if preference is WIFI: …
cloud().…`, with `# TODO work with both with EITHER` (no branch).  A method
call on an absent handle (`None`) raises `AttributeError`; an unknown name
makes `device` `None`, so the body is skipped and `None` is returned. -/
def routeCommand (r : Registry) (n : String) (op : RouteOp) : RouteOutcome :=
  match r.get n with
  | none => .retNone
  | some d =>
      match d.preference with
      | .BLUETOOTH =>
          match d.ble with
          | some h => .invokedBle h op
          | none => .raised .attributeError
      | .WIFI =>
          match d.cloud with
          | some h => .invokedCloud h op
          | none => .raised .attributeError
      | .EITHER => .retNone


/-! ### Concrete scenario states used by witnesses and counterexamples -/

/-- Manager of the cloud device "Luba-A": cloud handle bound to broker 5. -/
def mgrA : DeviceManager := ⟨"Luba-A", none, some ⟨some 5, ⟨"Luba-A", 100⟩⟩, .WIFI⟩

/-- Manager of "Luba-B": cloud handle bound to the same broker 5. -/
def mgrB : DeviceManager := ⟨"Luba-B", none, some ⟨some 5, ⟨"Luba-B", 101⟩⟩, .WIFI⟩

/-- Registry holding both cloud devices, sharing broker 5. -/
def rAB : Registry := [("Luba-A", mgrA), ("Luba-B", mgrB)]

/-- Registry holding only "Luba-B". -/
def rB : Registry := [("Luba-B", mgrB)]

/-- The raw BLE reference of the C3 scenario. -/
def bleRef1 : BLEDeviceRef := ⟨"Luba-1", 42⟩

/-- The radio-only manager first registered for "Luba-1". -/
def mgrRadio1 : DeviceManager := mkManager "Luba-1" none (some bleRef1) none .BLUETOOTH

/-- The cloud descriptor later registered for "Luba-1". -/
def cloudDesc1 : CloudDeviceDesc := ⟨"Luba-1", 100⟩

/-- The cloud-only manager later registered for "Luba-1" (broker 7). -/
def mgrCloud1 : DeviceManager := mkManager "Luba-1" (some cloudDesc1) none (some 7) .WIFI

/-- Registry after registering the radio device "Luba-1". -/
def rRadio : Registry := addDevice [] mgrRadio1

/-- Registry after additionally registering the cloud handle for "Luba-1". -/
def rBoth : Registry := addDevice rRadio mgrCloud1

/-- A registry whose single device prefers WIFI but has no cloud handle. -/
def rWifiNoCloud : Registry :=
  [("Luba-2", ⟨"Luba-2", some ⟨⟨"Luba-2", 43⟩⟩, none, .WIFI⟩)]

/-- A registry whose single device has both handles and preference EITHER. -/
def rEither : Registry :=
  [("Luba-3", ⟨"Luba-3", some ⟨⟨"Luba-3", 44⟩⟩, some ⟨some 9, ⟨"Luba-3", 102⟩⟩, .EITHER⟩)]


/-! ## Login and cloud-connection orchestration (`mammotion.py`)

`Mammotion.login_and_initiate_cloud` runs under `self._login_lock`; effects
(login exchange, broker construction, reconciliation, connect) are recorded in
a trace.  Credentials only feed the login exchange and are omitted. -/

/-- `CloudIOTGateway` after `login`: object identity plus the account's device
list (`devices_by_account_response.data.data` filled by
`list_binding_by_account`). -/
structure CloudClient where
  id : Nat
  devices : List CloudDeviceDesc
  deriving DecidableEq, Repr

/-- `MammotionCloud` broker connection object.  Modelled from the spec:
`MammotionCloud` / `MammotionMQTT` and its `is_connected` are not under src/;
per the spec the connection object exposes `connect()` (blocking, offloaded to
an executor and awaited) and `is_connected`, with `connect` establishing the
connection. -/
structure Broker where
  id : Nat
  cloudClient : CloudClient
  isConnected : Bool
  deriving DecidableEq, Repr

/-- `Mammotion.mqtt_list`: account identifier → broker connection. -/
abbrev MqttList : Type := List (String × Broker)

def MqttList.get (l : MqttList) (a : String) : Option Broker :=
  (List.find? (fun e => e.1 = a) l).map (·.2)

/-- `self.mqtt_list[account] = broker`: dict assignment. -/
def MqttList.set (l : MqttList) (a : String) (b : Broker) : MqttList :=
  if (MqttList.get l a).isSome then l.map (fun e => if e.1 = a then (a, b) else e)
  else l ++ [(a, b)]

/-- Orchestrator state: the device registry, the account-keyed broker map and
a counter supplying fresh object identities. -/
structure OrchState where
  devices : Registry
  mqttList : MqttList
  nextId : Nat
  deriving DecidableEq, Repr

/-- Observable effects of the login/connect span. -/
inductive Effect
  | loginExchange (account : String)
  | constructBroker (id : Nat)
  | connect (id : Nat)
  | reconcile (id : Nat)
  deriving DecidableEq, Repr

/-- The device list the cloud account reports, per account. -/
abbrev CloudEnv : Type := String → List CloudDeviceDesc

/-- `Mammotion.login` (mammotion.py lines 222-241): the full credential
exchange, producing a fresh authenticated `CloudIOTGateway` carrying the
account's device list. -/
def loginExchangeOp (env : CloudEnv) (st : OrchState) (account : String) :
    CloudClient × OrchState × List Effect :=
  (⟨st.nextId, env account⟩, { st with nextId := st.nextId + 1 },
    [Effect.loginExchange account])

/-- Python `n.startswith(p)`, as a character-list test. -/
def pyStartsWith (n p : String) : Bool := p.data.isPrefixOf n.data

/-- Recognized device-name prefixes: `startswith(("Luba-", "Yuka-"))`. -/
def recognizedName (n : String) : Bool :=
  pyStartsWith n "Luba-" || pyStartsWith n "Yuka-"

/-- Store an updated manager under `n` (in-place mutation of the manager
object retrieved from the dict). -/
def updateEntry (r : Registry) (n : String) (m : DeviceManager) : Registry :=
  r.map (fun e => if e.1 = n then (n, m) else e)

/-- Loop body of `Mammotion.add_cloud_devices` (mammotion.py lines 198-214)
for one descriptor of the account's device list: register unknown recognized
devices with a cloud handle under WIFI preference, attach a cloud handle to a
registered device lacking one, rebind a cloud handle pointing at a different
broker object, ignore unrecognized names. -/
def addCloudDevicesStep (mqttId : Nat) (r : Registry) (dev : CloudDeviceDesc) :
    Registry :=
  let mower := Registry.get r dev.deviceName
  if recognizedName dev.deviceName then
    match mower with
    | none =>
        addDevice r (mkManager dev.deviceName (some dev) none (some mqttId)
          ConnectionPreference.WIFI)
    | some m =>
        match m.cloud with
        | none =>
            updateEntry r dev.deviceName { m with cloud := some ⟨some mqttId, dev⟩ }
        | some ch =>
            if ch.mqtt ≠ some mqttId then
              updateEntry r dev.deviceName
                { m with cloud := some { ch with mqtt := some mqttId } }
            else r
  else r

/-- `Mammotion.add_cloud_devices`: folds the loop body over the
account's device list. -/
def addCloudDevices (mqtt : Broker) (r : Registry) : Registry :=
  mqtt.cloudClient.devices.foldl (addCloudDevicesStep mqtt.id) r

/-- The fresh-connection path of `initiate_cloud_connection`: construct a
`MammotionCloud` from the authenticated context, store it under the account,
reconcile devices, then connect (executor-offloaded and awaited; modelled from
the spec as establishing the connection). -/
def initiateFresh (st : OrchState) (account : String)
    (cloudClient : CloudClient) : OrchState × List Effect :=
  let b : Broker := ⟨st.nextId, cloudClient, false⟩
  let st1 := { st with mqttList := MqttList.set st.mqttList account b,
                       nextId := st.nextId + 1 }
  let st2 := { st1 with devices := addCloudDevices b st1.devices }
  let st3 := { st2 with
    mqttList := MqttList.set st2.mqttList account { b with isConnected := true } }
  (st3, [Effect.constructBroker b.id, Effect.reconcile b.id, Effect.connect b.id])

/-- `Mammotion.initiate_cloud_connection` (mammotion.py lines 172-196): when a
broker for the account exists and reports connected, re-run device
reconciliation and return; otherwise construct and connect a fresh broker. -/
def initiateCloudConnection (st : OrchState) (account : String)
    (cloudClient : CloudClient) : OrchState × List Effect :=
  match MqttList.get st.mqttList account with
  | some b =>
      if b.isConnected then
        ({ st with devices := addCloudDevices b st.devices },
          [Effect.reconcile b.id])
      else initiateFresh st account cloudClient
  | none => initiateFresh st account cloudClient

/-- `Mammotion.login_and_initiate_cloud` (mammotion.py lines 162-170); the
whole body holds `self._login_lock`, so concurrent calls execute it
serially: `if not exists or force:` perform the login exchange, else reuse
`exists.cloud_client`; then run the connection step. -/
def loginAndInitiateCloud (env : CloudEnv) (st : OrchState) (account : String)
    (force : Bool) : OrchState × List Effect :=
  match MqttList.get st.mqttList account with
  | none =>
      let p := loginExchangeOp env st account
      let q := initiateCloudConnection p.2.1 account p.1
      (q.1, p.2.2 ++ q.2)
  | some ex =>
      if force then
        let p := loginExchangeOp env st account
        let q := initiateCloudConnection p.2.1 account p.1
        (q.1, p.2.2 ++ q.2)
      else initiateCloudConnection st account ex.cloudClient

/-- N serialized `login_and_connect(force=false)` calls: the account lock
serializes concurrent callers over the full check/login/connect span, so N
concurrent calls execute as this sequential composition. -/
def loginCalls (env : CloudEnv) (st : OrchState) (account : String) :
    Nat → OrchState × List Effect
  | 0 => (st, [])
  | n + 1 =>
      let p := loginAndInitiateCloud env st account false
      let q := loginCalls env p.1 account n
      (q.1, p.2 ++ q.2)

/-- Number of login exchanges in a trace. -/
def countLogins (l : List Effect) : Nat :=
  l.countP (fun e => match e with | Effect.loginExchange _ => true | _ => false)

/-- Number of broker connection objects constructed in a trace. -/
def countConstructs (l : List Effect) : Nat :=
  l.countP (fun e => match e with | Effect.constructBroker _ => true | _ => false)

/-- Cloud environment reporting no devices, for closed instances. -/
def envEmpty : CloudEnv := fun _ => []

/-- Orchestrator state with nothing registered or connected. -/
def st0 : OrchState := ⟨[], [], 0⟩

/-- A broker connection for "user@example.com" that reports connected. -/
def brokerConn : Broker := ⟨3, ⟨2, []⟩, true⟩

/-- Orchestrator state holding the connected broker for "user@example.com". -/
def stC : OrchState := ⟨[], [("user@example.com", brokerConn)], 4⟩

/-- Unrecognized device descriptor for the C7 instances. -/
def devOther : CloudDeviceDesc := ⟨"Mower-X", 108⟩

/-- Recognized, unregistered device descriptor for the C7 instances. -/
def devLuba7 : CloudDeviceDesc := ⟨"Luba-7", 107⟩


lemma fragMemIntList_false (f : NavGetCommDataAck) (hs : List Nat) :
    fragMemIntList f hs = false := by
  simp [fragMemIntList, fragEqInt]

lemma HashDict.get_set_self (d : HashDict) (k : Nat) (v : FrameList) :
    (d.set k v).get k = some v := by
  simp [HashDict.get, HashDict.set]

lemma HashDict.get_set_other (d : HashDict) (k k' : Nat) (v : FrameList)
    (h : k' ≠ k) : (d.set k v).get k' = d.get k' := by
  simp [HashDict.get, HashDict.set, h]

/-- On a fresh hash, `_add_hash_data` stores the fragment twice: once in the
newly created `FrameList` and once more by the unconditional append (the
`not in hash_values` test compares a message object to ints, hence holds). -/
lemma addHashData_new (d : HashDict) (f : NavGetCommDataAck)
    (h : d.get f.hash = none) :
    (addHashData d f).get f.hash = some ⟨f.total_frame, [f, f]⟩ := by
  simp [addHashData, h, HashDict.get_set_self, fragMemIntList_false]

/-- On an existing hash, `_add_hash_data` appends unconditionally. -/
lemma addHashData_existing (d : HashDict) (f : NavGetCommDataAck) (fl : FrameList)
    (h : d.get f.hash = some fl) :
    (addHashData d f).get f.hash = some ⟨fl.total_frame, fl.data ++ [f]⟩ := by
  simp only [addHashData, h, Option.isNone_some, if_neg, Bool.false_eq_true,
    fragMemIntList_false, not_false_iff, if_pos, reduceCtorEq]
  exact HashDict.get_set_self _ _ _

/-- `_add_hash_data` leaves every other hash key untouched. -/
lemma addHashData_other (d : HashDict) (f : NavGetCommDataAck) (k : Nat)
    (h : k ≠ f.hash) : (addHashData d f).get k = d.get k := by
  unfold addHashData
  cases hd : d.get f.hash with
  | none =>
      simp only [hd, Option.isNone_none, if_true, HashDict.get_set_self,
        fragMemIntList_false, Bool.false_eq_true, not_false_iff, if_pos]
      rw [HashDict.get_set_other _ _ _ _ h, HashDict.get_set_other _ _ _ _ h]
  | some fl =>
      simp only [hd, Option.isNone_some, if_neg, fragMemIntList_false,
        Bool.false_eq_true, not_false_iff, if_pos, reduceCtorEq]
      exact HashDict.get_set_other _ _ _ _ h

/-- `_add_hash_data` never changes `total_frame` of an existing entry, and a
fresh entry takes its `total_frame` from the fragment. -/
lemma addHashData_total_frame (d : HashDict) (f : NavGetCommDataAck) :
    (∀ fl, d.get f.hash = some fl →
      ∃ fl', (addHashData d f).get f.hash = some fl' ∧
        fl'.total_frame = fl.total_frame) ∧
    (d.get f.hash = none →
      ∃ fl', (addHashData d f).get f.hash = some fl' ∧
        fl'.total_frame = f.total_frame) := by
  refine ⟨fun fl hfl => ⟨_, addHashData_existing d f fl hfl, rfl⟩,
    fun hn => ⟨_, addHashData_new d f hn, rfl⟩⟩

/-- `_add_hash_data` preserves the hash-key well-formedness of a dict. -/
lemma addHashData_WFd (d : HashDict) (f : NavGetCommDataAck) (hw : WFd d) :
    WFd (addHashData d f) := by
  intro h fl hget g hg
  rcases eq_or_ne h f.hash with rfl | hne
  · cases hd : d.get f.hash with
    | none =>
        rw [addHashData_new d f hd] at hget
        cases hget
        simp only [List.mem_cons, List.not_mem_nil, or_false] at hg
        rcases hg with hg | hg <;> rw [hg]
    | some fl0 =>
        rw [addHashData_existing d f fl0 hd] at hget
        cases hget
        rcases List.mem_append.mp hg with hg' | hg'
        · exact hw _ _ hd g hg'
        · simp only [List.mem_singleton] at hg'; rw [hg']
  · rw [addHashData_other d f h hne] at hget
    exact hw _ _ hget g hg

/-- The three sequential `if` statements of `update` collapse to a single
dispatch because the tested types 0, 1, 2 are mutually exclusive. -/
lemma HashList.update_def (s : HashList) (f : NavGetCommDataAck) :
    s.update f =
      if f.type = 0 then { s with area := addHashData s.area f }
      else if f.type = 1 then { s with obstacle := addHashData s.obstacle f }
      else if f.type = 2 then { s with path := addHashData s.path f }
      else s := by
  simp only [HashList.update]
  split_ifs <;> simp_all

/-- A fragment with a recognized category updates exactly the dict of its own
category. -/
lemma HashList.update_dict_self (s : HashList) (f : NavGetCommDataAck)
    (h : f.type < 3) :
    (s.update f).dict f.type = addHashData (s.dict f.type) f := by
  rw [HashList.update_def]
  rcases ht : f.type with _ | _ | _ | n
  · rfl
  · rfl
  · rfl
  · omega

/-- Any category view of the updated state is either untouched or the
`_add_hash_data` image of the same view. -/
lemma HashList.update_dict_cases (s : HashList) (f : NavGetCommDataAck) (t : Nat) :
    (s.update f).dict t = s.dict t ∨
    (s.update f).dict t = addHashData (s.dict t) f := by
  rw [HashList.update_def]
  split_ifs with h0 h1 h2
  · rcases t with _ | _ | t
    · exact Or.inr rfl
    · exact Or.inl rfl
    · exact Or.inl rfl
  · rcases t with _ | _ | t
    · exact Or.inl rfl
    · exact Or.inr rfl
    · exact Or.inl rfl
  · rcases t with _ | _ | t
    · exact Or.inl rfl
    · exact Or.inl rfl
    · exact Or.inr rfl
  · exact Or.inl rfl

/-- A category view other than the fragment's own is untouched. -/
lemma HashList.update_dict_other (s : HashList) (f : NavGetCommDataAck) (t : Nat)
    (ht : t < 3) (hne : t ≠ f.type) :
    (s.update f).dict t = s.dict t := by
  rw [HashList.update_def]
  split_ifs with h0 h1 h2
  · rcases t with _ | _ | t
    · omega
    · rfl
    · rfl
  · rcases t with _ | _ | t
    · rfl
    · omega
    · rfl
  · rcases t with _ | _ | t
    · rfl
    · rfl
    · rcases t with _ | t
      · omega
      · omega
  · rfl

lemma Registry.get_nil (n : String) : Registry.get [] n = none := rfl

lemma Registry.get_cons (e : String × DeviceManager) (r : Registry) (n : String) :
    Registry.get (e :: r) n = if e.1 = n then some e.2 else Registry.get r n := by
  by_cases h : e.1 = n
  · rw [Registry.get, List.find?_cons_of_pos _ (by simp [h]), if_pos h]; rfl
  · rw [Registry.get, List.find?_cons_of_neg _ (by simp [h]), if_neg h]; rfl

lemma Registry.get_append_single (r : Registry) (e : String × DeviceManager)
    (n : String) (hne : e.1 ≠ n) : Registry.get (r ++ [e]) n = Registry.get r n := by
  induction r with
  | nil => simp [Registry.get_cons, hne, Registry.get_nil]
  | cons a r ih => rw [List.cons_append, Registry.get_cons, Registry.get_cons, ih]

lemma Registry.get_map_mergeInto (r : Registry) (m : DeviceManager) (n : String) :
    Registry.get (r.map (fun e => if e.1 = m.name then (e.1, mergeInto e.2 m) else e)) n =
      if n = m.name then (Registry.get r n).map (fun d => mergeInto d m)
      else Registry.get r n := by
  induction r with
  | nil => simp [Registry.get_nil]
  | cons a r ih =>
      rw [List.map_cons]
      by_cases ha : a.1 = m.name
      · rw [if_pos ha, Registry.get_cons, Registry.get_cons]
        by_cases hn : a.1 = n
        · have hnm : n = m.name := hn ▸ ha
          simp [hn, hnm]
        · rw [if_neg hn, if_neg hn, ih]
      · rw [if_neg ha, Registry.get_cons, Registry.get_cons]
        by_cases hn : a.1 = n
        · have hnm : ¬ n = m.name := fun h => ha (hn.trans h)
          simp [hn, hnm]
        · rw [if_neg hn, if_neg hn, ih]

/-- `add_device` on a fresh name inserts the incoming manager as-is. -/
lemma addDevice_get_new (r : Registry) (m : DeviceManager)
    (h : Registry.get r m.name = none) :
    Registry.get (addDevice r m) m.name = some m := by
  unfold addDevice
  rw [h]
  induction r with
  | nil => simp [Registry.get_cons]
  | cons a r ih =>
      rw [Registry.get_cons] at h
      rcases ite_eq_iff.mp h with ⟨_, h'⟩ | ⟨ha, h'⟩
      · cases h'
      · rw [List.cons_append, Registry.get_cons, if_neg ha]
        exact ih h'

/-- `add_device` on an existing name merges into the stored manager. -/
lemma addDevice_get_merge (r : Registry) (m old : DeviceManager)
    (h : Registry.get r m.name = some old) :
    Registry.get (addDevice r m) m.name = some (mergeInto old m) := by
  unfold addDevice
  rw [h, Registry.get_map_mergeInto, if_pos rfl, h, Option.map_some']

/-- `add_device` leaves every other name's entry unchanged. -/
lemma addDevice_get_other (r : Registry) (m : DeviceManager) (n : String)
    (hne : n ≠ m.name) : Registry.get (addDevice r m) n = Registry.get r n := by
  unfold addDevice
  cases h : Registry.get r m.name with
  | none => exact Registry.get_append_single r (m.name, m) n (fun hh => hne hh.symm)
  | some _ => rw [Registry.get_map_mergeInto, if_neg hne]

/-- The merge of `add_device` never writes `preference`. -/
lemma mergeInto_preference (old m : DeviceManager) :
    (mergeInto old m).preference = old.preference := by
  simp only [mergeInto]
  split_ifs <;> rfl

/-- The merge replaces the cloud handle exactly when the incoming manager has
one. -/
lemma mergeInto_cloud (old m : DeviceManager) :
    (mergeInto old m).cloud = if m.cloud.isSome then m.cloud else old.cloud := by
  simp only [mergeInto]
  split_ifs <;> rfl

/-- The merge replaces the BLE handle exactly when the incoming manager has
one. -/
lemma mergeInto_ble (old m : DeviceManager) :
    (mergeInto old m).ble = if m.ble.isSome then m.ble else old.ble := by
  simp only [mergeInto]
  split_ifs <;> rfl

/-- Under unique keys, no entry of `eraseP (key = n)` has key `n`. -/
lemma eraseP_key_not_mem (r : Registry) (n : String)
    (hnd : (r.map Prod.fst).Nodup) :
    ∀ e ∈ r.eraseP (fun e => e.1 = n), e.1 ≠ n := by
  induction r with
  | nil => simp
  | cons a r ih =>
      rw [List.map_cons, List.nodup_cons] at hnd
      intro e he
      by_cases ha : a.1 = n
      · have h1 : (a :: r).eraseP (fun e => e.1 = n) = r := by
          simp [List.eraseP_cons, ha]
        rw [h1] at he
        intro hen
        exact hnd.1 (by rw [ha, ← hen]; exact List.mem_map_of_mem Prod.fst he)
      · have h1 : (a :: r).eraseP (fun e => e.1 = n) =
            a :: r.eraseP (fun e => e.1 = n) := by
          simp [List.eraseP_cons, ha]
        rw [h1] at he
        rcases List.mem_cons.mp he with rfl | he'
        · exact ha
        · exact ih hnd.2 e he'

/-- `eraseP (key = n)` leaves lookups of every other key unchanged. -/
lemma get_eraseP_other (r : Registry) (n n' : String) (hne : n' ≠ n) :
    Registry.get (r.eraseP (fun e => e.1 = n)) n' = Registry.get r n' := by
  induction r with
  | nil => rfl
  | cons a r ih =>
      by_cases ha : a.1 = n
      · have h1 : (a :: r).eraseP (fun e => e.1 = n) = r := by
          simp [List.eraseP_cons, ha]
        rw [h1, Registry.get_cons, if_neg (fun h => hne (h.symm.trans ha))]
      · have h1 : (a :: r).eraseP (fun e => e.1 = n) =
            a :: r.eraseP (fun e => e.1 = n) := by
          simp [List.eraseP_cons, ha]
        rw [h1, Registry.get_cons, Registry.get_cons, ih]

lemma mqttGet_cons (e : String × Broker) (l : MqttList) (a : String) :
    MqttList.get (e :: l) a = if e.1 = a then some e.2 else MqttList.get l a := by
  by_cases h : e.1 = a
  · rw [MqttList.get, List.find?_cons_of_pos _ (by simp [h]), if_pos h]; rfl
  · rw [MqttList.get, List.find?_cons_of_neg _ (by simp [h]), if_neg h]; rfl

lemma mqttGet_map_self (l : MqttList) (a : String) (b : Broker) :
    MqttList.get (l.map (fun e => if e.1 = a then (a, b) else e)) a =
      if (MqttList.get l a).isSome then some b else none := by
  induction l with
  | nil => simp [MqttList.get]
  | cons e l ih =>
      rw [List.map_cons]
      by_cases he : e.1 = a
      · rw [if_pos he, mqttGet_cons, if_pos rfl, mqttGet_cons, if_pos he]
        simp
      · rw [if_neg he, mqttGet_cons, if_neg he, ih, mqttGet_cons, if_neg he]

lemma mqttGet_append_self (l : MqttList) (a : String) (b : Broker)
    (h : MqttList.get l a = none) :
    MqttList.get (l ++ [(a, b)]) a = some b := by
  induction l with
  | nil => rw [List.nil_append, mqttGet_cons, if_pos rfl]
  | cons e l ih =>
      rw [mqttGet_cons] at h
      by_cases he : e.1 = a
      · rw [if_pos he] at h
        cases h
      · rw [if_neg he] at h
        rw [List.cons_append, mqttGet_cons, if_neg he]
        exact ih h

/-- Dict assignment stores the broker under the account key. -/
lemma mqttGet_set_self (l : MqttList) (a : String) (b : Broker) :
    MqttList.get (MqttList.set l a b) a = some b := by
  unfold MqttList.set
  by_cases h : (MqttList.get l a).isSome
  · rw [if_pos h, mqttGet_map_self, if_pos h]
  · rw [if_neg h, mqttGet_append_self l a b (Option.not_isSome_iff_eq_none.mp h)]

lemma countLogins_append (l1 l2 : List Effect) :
    countLogins (l1 ++ l2) = countLogins l1 + countLogins l2 :=
  List.countP_append _ _ _

lemma countConstructs_append (l1 l2 : List Effect) :
    countConstructs (l1 ++ l2) = countConstructs l1 + countConstructs l2 :=
  List.countP_append _ _ _

/-- A `login_and_initiate_cloud(force=false)` call on a state with no broker
for the account performs one login exchange, constructs one broker, and leaves
a connected broker stored for the account. -/
lemma loginAndInitiate_first (env : CloudEnv) (st : OrchState) (account : String)
    (h : MqttList.get st.mqttList account = none) :
    countLogins (loginAndInitiateCloud env st account false).2 = 1 ∧
    countConstructs (loginAndInitiateCloud env st account false).2 = 1 ∧
    ∃ b, MqttList.get (loginAndInitiateCloud env st account false).1.mqttList
      account = some b ∧ b.isConnected = true := by
  unfold loginAndInitiateCloud
  simp only [h, loginExchangeOp, initiateCloudConnection, initiateFresh]
  exact ⟨rfl, rfl, _, mqttGet_set_self _ _ _, rfl⟩

/-- A `login_and_initiate_cloud(force=false)` call on a state whose stored
broker reports connected only re-runs reconciliation. -/
lemma loginAndInitiate_connected (env : CloudEnv) (st : OrchState)
    (account : String) (b : Broker)
    (hb : MqttList.get st.mqttList account = some b)
    (hc : b.isConnected = true) :
    loginAndInitiateCloud env st account false =
      ({ st with devices := addCloudDevices b st.devices },
        [Effect.reconcile b.id]) := by
  unfold loginAndInitiateCloud
  simp only [hb, Bool.false_eq_true, if_false, initiateCloudConnection, hc, if_true]

/-- From a connected state, any number of serialized `force=false` calls
performs no further login and constructs no further broker. -/
lemma loginCalls_connected (env : CloudEnv) (account : String) (b : Broker)
    (hc : b.isConnected = true) :
    ∀ (n : Nat) (st : OrchState),
      MqttList.get st.mqttList account = some b →
      countLogins (loginCalls env st account n).2 = 0 ∧
      countConstructs (loginCalls env st account n).2 = 0 := by
  intro n
  induction n with
  | zero => intro st _; exact ⟨rfl, rfl⟩
  | succ n ih =>
      intro st hb
      unfold loginCalls
      rw [loginAndInitiate_connected env st account b hb hc]
      have hb' : MqttList.get ({ st with
          devices := addCloudDevices b st.devices } : OrchState).mqttList
          account = some b := hb
      obtain ⟨h1, h2⟩ := ih _ hb'
      constructor
      · rw [countLogins_append, h1]
        rfl
      · rw [countConstructs_append, h2]
        rfl

lemma get_updateEntry (r : Registry) (n : String) (m : DeviceManager) :
    Registry.get (updateEntry r n m) n =
      if (Registry.get r n).isSome then some m else none := by
  induction r with
  | nil => simp [Registry.get, updateEntry]
  | cons e r ih =>
      unfold updateEntry at *
      rw [List.map_cons]
      by_cases he : e.1 = n
      · rw [if_pos he, Registry.get_cons, if_pos rfl, Registry.get_cons, if_pos he]
        simp
      · rw [if_neg he, Registry.get_cons, if_neg he, ih, Registry.get_cons, if_neg he]

/-- The reconciliation loop body ignores descriptors with unrecognized
names. -/
lemma addCloudDevicesStep_unrecognized (mqttId : Nat) (r : Registry)
    (dev : CloudDeviceDesc) (h : recognizedName dev.deviceName = false) :
    addCloudDevicesStep mqttId r dev = r := by
  simp [addCloudDevicesStep, h]

/-- Folding the reconciliation loop over a device list equals folding over the
recognized-name devices only. -/
lemma addCloudDevices_filter (mqttId : Nat) :
    ∀ (devs : List CloudDeviceDesc) (r : Registry),
      devs.foldl (addCloudDevicesStep mqttId) r =
        (devs.filter (fun d => recognizedName d.deviceName)).foldl
          (addCloudDevicesStep mqttId) r := by
  intro devs
  induction devs with
  | nil => intro r; rfl
  | cons d devs ih =>
      intro r
      by_cases hd : recognizedName d.deviceName
      · rw [List.foldl_cons, List.filter_cons_of_pos (by simpa using hd),
          List.foldl_cons, ih]
      · rw [List.foldl_cons,
          addCloudDevicesStep_unrecognized mqttId r d (by simpa using hd),
          List.filter_cons_of_neg (by simpa using hd), ih]

end PyMammotion

open PyMammotion

/-- **C1** (code bug): ingestion does not deduplicate by full-content equality.
Ingesting `A`, `B`, `A` (same hash 1, same category area, `A ≠ B`) leaves the
FrameSet for hash 1 with the four fragments `[A, A, B, A]` — the membership
test in `_add_hash_data` compares the fragment object against a list of `int`
hash values (never true for a message object) and the creation branch lacks a
return, so the first fragment is stored twice and nothing is ever discarded.
The claimed result `[A, B]` of length 2 does not hold. -/
theorem C1_ingest_dedup_failure :
    fragA ≠ fragB ∧
    (HashList.ingestAll HashList.empty [fragA, fragB, fragA]).area.get 1 =
      some ⟨3, [fragA, fragA, fragB, fragA]⟩ ∧
    ((HashList.ingestAll HashList.empty [fragA, fragB, fragA]).area.get 1).map
      (fun fl => fl.data.length) = some 4 := by
  refine ⟨by decide, by decide, by decide⟩

/-- **C8**: the first fragment ingested for a hash fixes that FrameSet's
`total_frame`; every subsequent ingest (whatever `total_frame` it declares,
for any category and any stored hash) leaves existing `total_frame` values
unchanged. -/
theorem C8_total_frame_stability (s : HashList) (f : NavGetCommDataAck) :
    (∀ t h fl, (s.dict t).get h = some fl →
      ∃ fl', ((s.update f).dict t).get h = some fl' ∧
        fl'.total_frame = fl.total_frame) ∧
    (f.type < 3 → (s.dict f.type).get f.hash = none →
      ∃ fl', ((s.update f).dict f.type).get f.hash = some fl' ∧
        fl'.total_frame = f.total_frame) := by
  constructor
  · intro t h fl hget
    rcases HashList.update_dict_cases s f t with he | he
    · exact ⟨fl, by rw [he, hget], rfl⟩
    · rcases eq_or_ne h f.hash with rfl | hne
      · refine ⟨⟨fl.total_frame, fl.data ++ [f]⟩, ?_, rfl⟩
        rw [he]
        exact addHashData_existing _ f fl hget
      · exact ⟨fl, by rw [he, addHashData_other _ f h hne, hget], rfl⟩
  · intro hlt hnone
    rw [HashList.update_dict_self s f hlt]
    exact ⟨_, addHashData_new _ f hnone, rfl⟩

/-- Closed instance of C8: ingesting `fragA` into the empty state fixes
`total_frame = 3` for hash 1, and a subsequent ingest of `fragB` (same hash)
keeps it at 3. -/
theorem C8_total_frame_stability_witness :
    ((HashList.empty.update fragA).dict 0).get 1 = some ⟨3, [fragA, fragA]⟩ ∧
    (∃ fl', (((HashList.empty.update fragA).update fragB).dict 0).get 1 =
      some fl' ∧ fl'.total_frame = 3) ∧
    (∃ fl', ((HashList.empty.update fragA).dict 0).get 1 = some fl' ∧
      fl'.total_frame = fragA.total_frame) := by
  refine ⟨by decide, ?_, ?_⟩
  · exact (C8_total_frame_stability (HashList.empty.update fragA) fragB).1
      0 1 ⟨3, [fragA, fragA]⟩ (by decide)
  · exact (C8_total_frame_stability HashList.empty fragA).2 (by decide) (by decide)

/-- **C9**: an ingest mutates only the mapping of the fragment's own category
and only the FrameSet keyed by the fragment's hash; an unrecognized category
is a complete no-op; and every stored fragment sits in the FrameSet of its own
hash (so fragments with different hashes never share a FrameSet), a property
preserved from the empty state. -/
theorem C9_category_hash_isolation (s : HashList) (f : NavGetCommDataAck) :
    (2 < f.type → s.update f = s) ∧
    (∀ t, t < 3 → t ≠ f.type → (s.update f).dict t = s.dict t) ∧
    (∀ h, h ≠ f.hash → ∀ t, ((s.update f).dict t).get h = (s.dict t).get h) ∧
    HashList.WF HashList.empty ∧
    (HashList.WF s → HashList.WF (s.update f)) := by
  refine ⟨?_, ?_, ?_, ?_, ?_⟩
  · intro hgt
    rw [HashList.update_def]
    have h0 : f.type ≠ 0 := by omega
    have h1 : f.type ≠ 1 := by omega
    have h2 : f.type ≠ 2 := by omega
    simp [h0, h1, h2]
  · exact fun t ht hne => HashList.update_dict_other s f t ht hne
  · intro h hne t
    rcases HashList.update_dict_cases s f t with he | he
    · rw [he]
    · rw [he, addHashData_other _ f h hne]
  · refine ⟨?_, ?_, ?_⟩ <;> intro h fl hfl <;>
      simp [HashList.empty, HashDict.get] at hfl
  · intro hw
    rw [HashList.update_def]
    split_ifs with h0 h1 h2
    · exact ⟨addHashData_WFd _ f hw.1, hw.2.1, hw.2.2⟩
    · exact ⟨hw.1, addHashData_WFd _ f hw.2.1, hw.2.2⟩
    · exact ⟨hw.1, hw.2.1, addHashData_WFd _ f hw.2.2⟩
    · exact hw

/-- Closed instance of C9: a category-7 fragment is a no-op on the empty
state, ingesting `fragA` (area) leaves the obstacle view and other hash keys
untouched, and well-formedness holds after the ingest. -/
theorem C9_category_hash_isolation_witness :
    HashList.empty.update ⟨7, 1, 3, 0, [10]⟩ = HashList.empty ∧
    (HashList.empty.update fragA).dict 1 = HashList.empty.dict 1 ∧
    (((HashList.empty.update fragA).dict 0).get 2 =
      (HashList.empty.dict 0).get 2) ∧
    HashList.WF (HashList.empty.update fragA) := by
  refine ⟨(C9_category_hash_isolation HashList.empty ⟨7, 1, 3, 0, [10]⟩).1
      (by decide),
    (C9_category_hash_isolation HashList.empty fragA).2.1 1 (by decide)
      (by decide),
    (C9_category_hash_isolation HashList.empty fragA).2.2.1 2 (by decide) 0,
    (C9_category_hash_isolation HashList.empty fragA).2.2.2.2
      (C9_category_hash_isolation HashList.empty fragA).2.2.2.1⟩

/-- **C3**: registering a descriptor for an already-registered name replaces
only the handle of the transport kind supplied; the other handle and the
stored preference are untouched, and all other registry entries are
unchanged. -/
theorem C3_registration_non_clobber (r : Registry) (m old : DeviceManager)
    (hget : Registry.get r m.name = some old) :
    ∃ merged, Registry.get (addDevice r m) m.name = some merged ∧
      merged.preference = old.preference ∧
      (m.cloud = none → merged.cloud = old.cloud) ∧
      (m.cloud.isSome → merged.cloud = m.cloud) ∧
      (m.ble = none → merged.ble = old.ble) ∧
      (m.ble.isSome → merged.ble = m.ble) ∧
      ∀ n', n' ≠ m.name → Registry.get (addDevice r m) n' = Registry.get r n' := by
  refine ⟨mergeInto old m, addDevice_get_merge r m old hget,
    mergeInto_preference old m, ?_, ?_, ?_, ?_,
    fun n' hne => addDevice_get_other r m n' hne⟩
  · intro hc
    rw [mergeInto_cloud, hc, Option.isSome_none, if_neg (by simp)]
  · intro hc
    rw [mergeInto_cloud, if_pos hc]
  · intro hb
    rw [mergeInto_ble, hb, Option.isSome_none, if_neg (by simp)]
  · intro hb
    rw [mergeInto_ble, if_pos hb]

/-- Closed instance of C3 (the spec's concrete scenario): after registering
radio device "Luba-1" and then a cloud descriptor under the same name, the
single entry holds both handles and keeps the radio registration's
BLUETOOTH preference. -/
theorem C3_registration_non_clobber_witness :
    ∃ merged, Registry.get rBoth "Luba-1" = some merged ∧
      merged.preference = ConnectionPreference.BLUETOOTH ∧
      merged.ble = some ⟨bleRef1⟩ ∧
      merged.cloud = some ⟨some 7, cloudDesc1⟩ := by
  obtain ⟨merged, hm, hp, -, hc, hb, -, -⟩ :=
    C3_registration_non_clobber rRadio mgrCloud1 mgrRadio1 (by decide)
  refine ⟨merged, hm, ?_, ?_, ?_⟩
  · rw [hp]; rfl
  · rw [hb rfl]; rfl
  · rw [hc rfl]; rfl

/-- **C4**: `remove_device` removes the entry (leaving other entries intact)
and, when the removed entry has a cloud handle, calls `disconnect()` on its
broker iff no remaining registered device's cloud handle references the same
broker connection object. -/
theorem C4_remove_broker_teardown (r : Registry) (n : String) (d : DeviceManager)
    (hget : Registry.get r n = some d) (hnd : (r.map Prod.fst).Nodup) :
    ∃ r' disc, removeDevice r n = some (r', disc) ∧
      Registry.get r' n = none ∧
      (∀ n', n' ≠ n → Registry.get r' n' = Registry.get r n') ∧
      (∀ ch, d.cloud = some ch →
        (disc = true ↔ ∀ e ∈ r', ∀ ch', e.2.cloud = some ch' →
          ch'.mqtt ≠ ch.mqtt)) ∧
      (d.cloud = none → disc = false) := by
  have hkeys := eraseP_key_not_mem r n hnd
  have hnone : Registry.get (r.eraseP (fun e => e.1 = n)) n = none := by
    rw [Registry.get, List.find?_eq_none.mpr]
    · rfl
    · intro e he
      simpa using hkeys e he
  cases hc : d.cloud with
  | none =>
      refine ⟨r.eraseP (fun e => e.1 = n), false, ?_, hnone,
        fun n' hne => get_eraseP_other r n n' hne, ?_, fun _ => rfl⟩
      · unfold removeDevice
        rw [hget]
        simp [hc]
      · intro ch hch
        cases hch
  | some ch0 =>
      refine ⟨r.eraseP (fun e => e.1 = n),
        decide (((r.eraseP (fun e => e.1 = n)).filter (sharesBroker d)).length = 0),
        ?_, hnone, fun n' hne => get_eraseP_other r n n' hne, ?_, ?_⟩
      · unfold removeDevice
        rw [hget]
        simp [hc]
      · intro ch hch
        cases hch
        rw [decide_eq_true_eq]
        constructor
        · intro hlen e he ch' hch' hmq
          have hmem : e ∈ (r.eraseP (fun e => e.1 = n)).filter (sharesBroker d) := by
            rw [List.mem_filter]
            refine ⟨he, ?_⟩
            simp only [sharesBroker, hc, hch']
            exact decide_eq_true hmq
          rw [List.length_eq_zero.mp hlen] at hmem
          cases hmem
        · intro hall
          have hfil : (r.eraseP (fun e => e.1 = n)).filter (sharesBroker d) = [] := by
            rw [List.filter_eq_nil_iff]
            intro e he hb
            rcases he2 : e.2.cloud with _ | ch'
            · simp [sharesBroker, he2] at hb
            · simp only [sharesBroker, he2, hc] at hb
              exact hall e he ch' he2 (of_decide_eq_true hb)
          rw [hfil]
          rfl
      · intro h0
        cases h0

/-- Closed instance of C4 (the spec's scenario): with "Luba-A" and "Luba-B"
sharing broker 5, removing the first does not disconnect and removing the
second does. -/
theorem C4_remove_broker_teardown_witness :
    (∃ p, removeDevice rAB "Luba-A" = some p ∧ p.2 = false) ∧
    (∃ p, removeDevice rB "Luba-B" = some p ∧ p.2 = true) := by
  constructor
  · obtain ⟨r', disc, heq, -, -, -, -⟩ :=
      C4_remove_broker_teardown rAB "Luba-A" mgrA (by decide) (by decide)
    have hcomp : removeDevice rAB "Luba-A" = some ([("Luba-B", mgrB)], false) := by
      decide
    have h2 : (r', disc) = ([("Luba-B", mgrB)], false) :=
      Option.some.inj (heq.symm.trans hcomp)
    exact ⟨(r', disc), heq, by rw [h2]⟩
  · obtain ⟨r', disc, heq, -, -, -, -⟩ :=
      C4_remove_broker_teardown rB "Luba-B" mgrB (by decide) (by decide)
    have hcomp : removeDevice rB "Luba-B" = some ([], true) := by decide
    have h2 : (r', disc) = ([], true) := Option.some.inj (heq.symm.trans hcomp)
    exact ⟨(r', disc), heq, by rw [h2]⟩

/-- **C2** is false on the code: routing with an unknown device name returns
`None` without raising (the `if device:` guard skips the body), not
`LookupError`; and routing a WIFI-preferring device with no cloud handle
raises `AttributeError`, which is not in the `LookupError` class. -/
theorem C2_counterexample :
    routeCommand [] "Luba-1" RouteOp.sendCommand = RouteOutcome.retNone ∧
    routeCommand [] "Luba-1" RouteOp.sendCommand ≠
      RouteOutcome.raised PyErr.lookupError ∧
    routeCommand rWifiNoCloud "Luba-2" RouteOp.sendCommand =
      RouteOutcome.raised PyErr.attributeError ∧
    isLookupErrorClass PyErr.attributeError = false := by
  refine ⟨by decide, by decide, by decide, by decide⟩

/-- **C2 amended**: every routing operation called with an unknown device name
returns `None` without invoking either transport and without raising; for a
registered device whose preference selects an absent transport handle, the
operation raises `AttributeError` (not a `LookupError`-class error, but not a
silent no-op either). -/
theorem C2_amended_routing (r : Registry) (n : String) (op : RouteOp) :
    (Registry.get r n = none → routeCommand r n op = RouteOutcome.retNone) ∧
    (∀ d, Registry.get r n = some d → d.preference = ConnectionPreference.WIFI →
      d.cloud = none →
      routeCommand r n op = RouteOutcome.raised PyErr.attributeError) ∧
    (∀ d, Registry.get r n = some d →
      d.preference = ConnectionPreference.BLUETOOTH → d.ble = none →
      routeCommand r n op = RouteOutcome.raised PyErr.attributeError) ∧
    isLookupErrorClass PyErr.attributeError = false := by
  refine ⟨fun h => by simp [routeCommand, h], ?_, ?_, rfl⟩
  · intro d hd hp hcl
    simp [routeCommand, hd, hp, hcl]
  · intro d hd hp hb
    simp [routeCommand, hd, hp, hb]

/-- Closed instance of the amended C2. -/
theorem C2_amended_routing_witness :
    routeCommand [] "Luba-1" RouteOp.startSync = RouteOutcome.retNone ∧
    routeCommand rWifiNoCloud "Luba-2" RouteOp.startSync =
      RouteOutcome.raised PyErr.attributeError := by
  refine ⟨(C2_amended_routing [] "Luba-1" RouteOp.startSync).1 rfl, ?_⟩
  exact (C2_amended_routing rWifiNoCloud "Luba-2" RouteOp.startSync).2.1
    ⟨"Luba-2", some ⟨⟨"Luba-2", 43⟩⟩, none, .WIFI⟩ (by decide) rfl rfl

/-- **C10**: for a registered device whose preference is EITHER, each of the
four routing operations returns `None` without invoking either transport
handle and without raising — both dispatch ifs are skipped and the `# TODO`
fallthrough returns `None`. -/
theorem C10_either_returns_none (r : Registry) (n : String) (d : DeviceManager)
    (hget : Registry.get r n = some d)
    (hpref : d.preference = ConnectionPreference.EITHER) :
    ∀ op, routeCommand r n op = RouteOutcome.retNone := by
  intro op
  simp [routeCommand, hget, hpref]

/-- Closed instance of C10: the EITHER device "Luba-3" (both handles present)
yields `None` on a routing call. -/
theorem C10_either_returns_none_witness :
    routeCommand rEither "Luba-3" RouteOp.startMapSync = RouteOutcome.retNone :=
  C10_either_returns_none rEither "Luba-3"
    ⟨"Luba-3", some ⟨⟨"Luba-3", 44⟩⟩, some ⟨some 9, ⟨"Luba-3", 102⟩⟩, .EITHER⟩
    (by decide) rfl RouteOp.startMapSync

/-- `initiate_cloud_connection` never performs a login exchange. -/
lemma initiate_no_login (st : OrchState) (account : String) (cc : CloudClient) :
    countLogins (initiateCloudConnection st account cc).2 = 0 := by
  unfold initiateCloudConnection
  cases hg : MqttList.get st.mqttList account with
  | none => rfl
  | some b =>
      cases hc : b.isConnected
      · simp only [hc, Bool.false_eq_true, if_false, initiateFresh]
        rfl
      · simp only [hc, if_true]
        rfl

/-- **C5**: with an existing session and `force=false`, the authenticated
context is reused and no login exchange runs; with no session or `force=true`,
exactly one full login sequence runs; and when the stored broker reports
connected, the call only re-runs device reconciliation and returns with the
broker map unchanged — no broker construction, no reconnect. -/
theorem C5_session_reuse (env : CloudEnv) (st : OrchState) (account : String)
    (force : Bool) :
    (∀ b, MqttList.get st.mqttList account = some b →
      countLogins (loginAndInitiateCloud env st account false).2 = 0) ∧
    (MqttList.get st.mqttList account = none ∨ force = true →
      countLogins (loginAndInitiateCloud env st account force).2 = 1) ∧
    (∀ b, MqttList.get st.mqttList account = some b → b.isConnected = true →
      loginAndInitiateCloud env st account false =
        ({ st with devices := addCloudDevices b st.devices },
          [Effect.reconcile b.id])) := by
  refine ⟨?_, ?_, fun b hb hc => loginAndInitiate_connected env st account b hb hc⟩
  · intro b hb
    unfold loginAndInitiateCloud
    simp only [hb, Bool.false_eq_true, if_false]
    exact initiate_no_login st account b.cloudClient
  · intro hor
    rcases hor with hn | hf
    · unfold loginAndInitiateCloud
      simp only [hn, loginExchangeOp]
      rw [countLogins_append, initiate_no_login]
      rfl
    · subst hf
      unfold loginAndInitiateCloud
      cases hg : MqttList.get st.mqttList account with
      | none =>
          simp only [loginExchangeOp]
          rw [countLogins_append, initiate_no_login]
          rfl
      | some ex =>
          simp only [if_true, loginExchangeOp]
          rw [countLogins_append, initiate_no_login]
          rfl

/-- Closed instance of C5: on the connected state `stC` no login runs and the
call reduces to reconciliation; on the empty state `st0` one login runs. -/
theorem C5_session_reuse_witness :
    countLogins (loginAndInitiateCloud envEmpty stC "user@example.com" false).2 = 0 ∧
    countLogins (loginAndInitiateCloud envEmpty st0 "user@example.com" false).2 = 1 ∧
    loginAndInitiateCloud envEmpty stC "user@example.com" false =
      ({ stC with devices := addCloudDevices brokerConn [] },
        [Effect.reconcile 3]) := by
  refine ⟨(C5_session_reuse envEmpty stC "user@example.com" false).1 brokerConn rfl,
    (C5_session_reuse envEmpty st0 "user@example.com" false).2.1 (Or.inl rfl), ?_⟩
  exact (C5_session_reuse envEmpty stC "user@example.com" false).2.2 brokerConn rfl rfl

/-- **C6**: N ≥ 1 serialized `login_and_connect(force=false)` calls for one
account (the account lock serializes concurrent callers over the whole
check/login/connect span) perform exactly one login exchange and construct
exactly one broker connection object. -/
theorem C6_login_dedup (env : CloudEnv) (st : OrchState) (account : String)
    (N : Nat) (hN : 1 ≤ N)
    (h : MqttList.get st.mqttList account = none) :
    countLogins (loginCalls env st account N).2 = 1 ∧
    countConstructs (loginCalls env st account N).2 = 1 := by
  obtain ⟨n, rfl⟩ : ∃ n, N = n + 1 := ⟨N - 1, by omega⟩
  obtain ⟨h1, h2, b, hb, hc⟩ := loginAndInitiate_first env st account h
  obtain ⟨h3, h4⟩ := loginCalls_connected env account b hc n _ hb
  unfold loginCalls
  constructor
  · rw [countLogins_append, h1, h3]
  · rw [countConstructs_append, h2, h4]

/-- Closed instance of C6 at N = 3. -/
theorem C6_login_dedup_witness :
    1 ≤ 3 ∧
    countLogins (loginCalls envEmpty st0 "user@example.com" 3).2 = 1 ∧
    countConstructs (loginCalls envEmpty st0 "user@example.com" 3).2 = 1 :=
  ⟨by decide,
   (C6_login_dedup envEmpty st0 "user@example.com" 3 (by decide) rfl).1,
   (C6_login_dedup envEmpty st0 "user@example.com" 3 (by decide) rfl).2⟩

/-- **C7**: one reconciliation step registers an unknown recognized device
with a cloud handle under WIFI preference, attaches a cloud handle to a
registered device lacking one, rebinds a cloud handle bound to a different
broker object to the current one, leaves a correctly bound device alone, and
ignores unrecognized names — so folding over the account's device list equals
folding over its recognized-name sublist. -/
theorem C7_cloud_reconciliation (mqttId : Nat) (r : Registry)
    (dev : CloudDeviceDesc) :
    (recognizedName dev.deviceName = false →
      addCloudDevicesStep mqttId r dev = r) ∧
    (recognizedName dev.deviceName = true →
      Registry.get r dev.deviceName = none →
      Registry.get (addCloudDevicesStep mqttId r dev) dev.deviceName =
        some (mkManager dev.deviceName (some dev) none (some mqttId)
          ConnectionPreference.WIFI)) ∧
    (∀ m, recognizedName dev.deviceName = true →
      Registry.get r dev.deviceName = some m → m.cloud = none →
      Registry.get (addCloudDevicesStep mqttId r dev) dev.deviceName =
        some { m with cloud := some ⟨some mqttId, dev⟩ }) ∧
    (∀ m ch, recognizedName dev.deviceName = true →
      Registry.get r dev.deviceName = some m → m.cloud = some ch →
      ch.mqtt ≠ some mqttId →
      Registry.get (addCloudDevicesStep mqttId r dev) dev.deviceName =
        some { m with cloud := some { ch with mqtt := some mqttId } }) ∧
    (∀ m ch, recognizedName dev.deviceName = true →
      Registry.get r dev.deviceName = some m → m.cloud = some ch →
      ch.mqtt = some mqttId →
      addCloudDevicesStep mqttId r dev = r) ∧
    (∀ devs : List CloudDeviceDesc,
      devs.foldl (addCloudDevicesStep mqttId) r =
        (devs.filter (fun d => recognizedName d.deviceName)).foldl
          (addCloudDevicesStep mqttId) r) := by
  refine ⟨fun h => addCloudDevicesStep_unrecognized mqttId r dev h,
    ?_, ?_, ?_, ?_, fun devs => addCloudDevices_filter mqttId devs r⟩
  · intro hrec hnone
    unfold addCloudDevicesStep
    simp only [hrec, if_true, hnone]
    exact addDevice_get_new r _ hnone
  · intro m hrec hsome hcl
    unfold addCloudDevicesStep
    simp only [hrec, if_true, hsome, hcl]
    rw [get_updateEntry, if_pos (by rw [hsome]; rfl)]
  · intro m ch hrec hsome hch hne
    unfold addCloudDevicesStep
    simp only [hrec, if_true, hsome, hch]
    rw [if_pos hne, get_updateEntry, if_pos (by rw [hsome]; rfl)]
  · intro m ch hrec hsome hch heq
    unfold addCloudDevicesStep
    simp only [hrec, if_true, hsome, hch]
    rw [if_neg (by simp [heq])]

/-- Closed instances of C7: ignore an unrecognized name, register a new
recognized device (WIFI preference), attach a cloud handle to the radio-only
"Luba-1", rebind the cloud handle of "Luba-1" from broker 7 to broker 9, and
the fold-equals-filtered-fold consequence. -/
theorem C7_cloud_reconciliation_witness :
    addCloudDevicesStep 5 rRadio devOther = rRadio ∧
    Registry.get (addCloudDevicesStep 5 [] devLuba7) "Luba-7" =
      some (mkManager "Luba-7" (some devLuba7) none (some 5)
        ConnectionPreference.WIFI) ∧
    Registry.get (addCloudDevicesStep 5 rRadio cloudDesc1) "Luba-1" =
      some { mgrRadio1 with cloud := some ⟨some 5, cloudDesc1⟩ } ∧
    Registry.get (addCloudDevicesStep 9 rBoth cloudDesc1) "Luba-1" =
      some { mergeInto mgrRadio1 mgrCloud1 with
        cloud := some ⟨some 9, cloudDesc1⟩ } ∧
    [devOther].foldl (addCloudDevicesStep 5) rRadio = rRadio := by
  refine ⟨(C7_cloud_reconciliation 5 rRadio devOther).1 (by decide),
    (C7_cloud_reconciliation 5 [] devLuba7).2.1 (by decide) rfl,
    (C7_cloud_reconciliation 5 rRadio cloudDesc1).2.2.1 mgrRadio1 (by decide)
      (by decide) rfl,
    (C7_cloud_reconciliation 9 rBoth cloudDesc1).2.2.2.1
      (mergeInto mgrRadio1 mgrCloud1) ⟨some 7, cloudDesc1⟩ (by decide)
      (by decide) (by decide) (by decide), ?_⟩
  have h5 := (C7_cloud_reconciliation 5 rRadio devOther).2.2.2.2.2 [devOther]
  have hf : [devOther].filter (fun d => recognizedName d.deviceName) = [] := by
    decide
  rw [hf] at h5
  exact h5
